import Mathlib

/-
Shallow embedding of src/abraflexi_mcp_server/server.py (AbraFlexi MCP server).

The server is a translation layer: every tool reads the process environment,
optionally resolves a cached configuration, constructs a fresh evidence-scoped
client, invokes a small fixed sequence of client methods, and formats the
result as a JSON string.  The embedding models:
  - Python values handed to json.dumps (PyVal) and the two json.dumps call
    shapes used by the code (compact for the boolean envelope, indent=2 with
    ensure_ascii=False and default=str otherwise);
  - Python int(...) applied to strings (pythonInt) and Python truthiness of
    the optional parameters (truthyS, truthyL, ...);
  - the process environment as an association list and the module-level
    configuration cache as an Option Config threaded through each call;
  - the external python-abraflexi client as an oracle (Remote) plus an
    explicit trace of client-method invocations (ClientEvent), so that
    "no remote call happens" is the statement "the trace is empty".
Each MCP tool function becomes a Lean function returning a ToolOut: the
result (Except PyErr String), the new configuration cache, and the trace.
-/

/-- Python JSON-serializable values as passed to json.dumps by the server:
None, bool, int, str, list, dict (string keys, insertion ordered), plus
`pother s` for a non-JSON-serializable object whose str() form is `s`
(rendered through the default=str hook). -/
inductive PyVal where
  | pnull
  | pbool (b : Bool)
  | pint (n : Int)
  | pstr (s : String)
  | pother (s : String)
  | plist (xs : List PyVal)
  | pdict (kvs : List (String × PyVal))

/-- Lowercase hexadecimal digit. -/
def hexDigit (n : Nat) : Char :=
  if n < 10 then Char.ofNat (48 + n) else Char.ofNat (87 + n)

/-- Four lowercase hex digits, as json.dumps uses in \u escapes. -/
def hex4 (n : Nat) : String :=
  String.mk [hexDigit (n / 4096 % 16), hexDigit (n / 256 % 16),
             hexDigit (n / 16 % 16), hexDigit (n % 16)]

/-- How json.dumps with ensure_ascii=False renders one character of a string:
quote, backslash and the named control characters get two-character escapes,
the remaining control characters get \u00xx, and every other character
(including all non-ASCII characters) is emitted verbatim. -/
def escJsonChar (c : Char) : String :=
  if c = '"' then "\\\""
  else if c = '\\' then "\\\\"
  else if c = '\n' then "\\n"
  else if c = '\t' then "\\t"
  else if c = '\r' then "\\r"
  else if c = Char.ofNat 8 then "\\b"
  else if c = Char.ofNat 12 then "\\f"
  else if c.toNat < 32 then "\\u" ++ hex4 c.toNat
  else String.singleton c

/-- JSON string literal for `s` under ensure_ascii=False. -/
def encStr (s : String) : String :=
  "\"" ++ String.join (s.data.map escJsonChar) ++ "\""

/-- Indentation prefix used by json.dumps(..., indent=2) at nesting depth d. -/
def ind2 (d : Nat) : String := String.mk (List.replicate (2 * d) ' ')

mutual

/-- json.dumps(value, indent=2, default=str, ensure_ascii=False) at depth d. -/
def dumpVal : PyVal → Nat → String
  | .pnull, _ => "null"
  | .pbool true, _ => "true"
  | .pbool false, _ => "false"
  | .pint n, _ => toString n
  | .pstr s, _ => encStr s
  | .pother s, _ => encStr s
  | .plist [], _ => "[]"
  | .plist (x :: xs), d => "[\n" ++ dumpItems (x :: xs) (d + 1) ++ "\n" ++ ind2 d ++ "]"
  | .pdict [], _ => "\x7b\x7d"
  | .pdict (kv :: kvs), d =>
      "\x7b\n" ++ dumpEntries (kv :: kvs) (d + 1) ++ "\n" ++ ind2 d ++ "\x7d"

/-- Array items at depth d, each on its own indented line, separated by ",". -/
def dumpItems : List PyVal → Nat → String
  | [], _ => ""
  | [x], d => ind2 d ++ dumpVal x d
  | x :: y :: xs, d => ind2 d ++ dumpVal x d ++ ",\n" ++ dumpItems (y :: xs) d

/-- Object entries at depth d in list (= dict insertion) order. -/
def dumpEntries : List (String × PyVal) → Nat → String
  | [], _ => ""
  | [(k, v)], d => ind2 d ++ encStr k ++ ": " ++ dumpVal v d
  | (k, v) :: kv :: kvs, d =>
      ind2 d ++ encStr k ++ ": " ++ dumpVal v d ++ ",\n" ++ dumpEntries (kv :: kvs) d

end

mutual

/-- json.dumps(value) with default separators and no indent, as used for the
boolean success envelope. -/
def dumpCompact : PyVal → String
  | .pnull => "null"
  | .pbool true => "true"
  | .pbool false => "false"
  | .pint n => toString n
  | .pstr s => encStr s
  | .pother s => encStr s
  | .plist xs => "[" ++ dumpCompactItems xs ++ "]"
  | .pdict kvs => "\x7b" ++ dumpCompactEntries kvs ++ "\x7d"

/-- Compact array items separated by ", ". -/
def dumpCompactItems : List PyVal → String
  | [] => ""
  | [x] => dumpCompact x
  | x :: y :: xs => dumpCompact x ++ ", " ++ dumpCompactItems (y :: xs)

/-- Compact object entries separated by ", ", key separator ": ". -/
def dumpCompactEntries : List (String × PyVal) → String
  | [] => ""
  | [(k, v)] => encStr k ++ ": " ++ dumpCompact v
  | (k, v) :: kv :: kvs =>
      encStr k ++ ": " ++ dumpCompact v ++ ", " ++ dumpCompactEntries (kv :: kvs)

end

/-- format_response from server.py: a bool is wrapped as json.dumps
on the dict with the single key "success"; everything else goes through
json.dumps(data, indent=2, default=str, ensure_ascii=False). -/
def format_response : PyVal → String
  | .pbool b => dumpCompact (.pdict [("success", .pbool b)])
  | v => dumpVal v 0

/-- Python whitespace stripped by int() around a numeric literal. -/
def isPySpace (c : Char) : Bool :=
  c.toNat == 32 || c.toNat == 9 || c.toNat == 10 ||
  c.toNat == 13 || c.toNat == 11 || c.toNat == 12

/-- Strip leading and trailing whitespace. -/
def stripPySpace (cs : List Char) : List Char :=
  ((cs.dropWhile isPySpace).reverse.dropWhile isPySpace).reverse

/-- Decimal digit value of a character, if it is an ASCII digit. -/
def digitVal (c : Char) : Option Nat :=
  if 48 ≤ c.toNat ∧ c.toNat ≤ 57 then some (c.toNat - 48) else none

/-- Digits after the first one; a single underscore may separate two digits
(Python int literal rule), a trailing or doubled underscore is an error. -/
def parseDigits (acc : Nat) (afterUnderscore : Bool) : List Char → Option Nat
  | [] => if afterUnderscore then none else some acc
  | c :: cs =>
      if c = '_' then
        if afterUnderscore then none else parseDigits acc true cs
      else
        match digitVal c with
        | some d => parseDigits (acc * 10 + d) false cs
        | none => none

/-- Unsigned decimal numeral: at least one digit, underscores between digits. -/
def parseUNat : List Char → Option Nat
  | [] => none
  | c :: cs =>
      match digitVal c with
      | some d => parseDigits d false cs
      | none => none

/-- Optionally signed decimal numeral. -/
def parseSigned : List Char → Option Int
  | [] => none
  | c :: cs =>
      if c = '+' then (parseUNat cs).map (fun n => (n : Int))
      else if c = '-' then (parseUNat cs).map (fun n => -(n : Int))
      else (parseUNat (c :: cs)).map (fun n => (n : Int))

/-- Python int(s) for a string argument: strip whitespace, optional sign,
non-empty digit sequence; returns none where CPython raises ValueError. -/
def pythonInt (s : String) : Option Int :=
  parseSigned (stripPySpace s.data)

/-- The process environment: an association list of variable names to values
(os.getenv returns None for an absent name). -/
def Env : Type := List (String × String)

/-- os.getenv(key). -/
def getenv (e : Env) (k : String) : Option String :=
  (e.find? (fun p => p.1 == k)).map (fun p => p.2)

/-- os.getenv(key, default). -/
def getenvD (e : Env) (k d : String) : String := (getenv e k).getD d

/-- Python truthiness of an optional string: None and "" are falsy. -/
def truthyS : Option String → Bool
  | none => false
  | some s => !s.isEmpty

/-- Python truthiness of an optional string list: None and [] are falsy. -/
def truthyL : Option (List String) → Bool
  | none => false
  | some l => !l.isEmpty

/-- Python truthiness of an optional int: None and 0 are falsy. -/
def truthyI : Option Int → Bool
  | none => false
  | some n => !(n == 0)

/-- Python truthiness of an optional list of values: None and [] are falsy. -/
def truthyPL : Option (List PyVal) → Bool
  | none => false
  | some l => !l.isEmpty

/-- Python truthiness of an optional dict: None and an empty dict are falsy. -/
def truthyD : Option (List (String × PyVal)) → Bool
  | none => false
  | some l => !l.isEmpty

/-- The items iterated by `for key, value in d.items()` guarded by `if d:`. -/
def dictItems (d : Option (List (String × PyVal))) : List (String × PyVal) :=
  if truthyD d then d.getD [] else []

/-- str.lower() as used on the READ_ONLY value, character by character.
(On every input whose lowercase form could equal "true", "1" or "yes" this
agrees with Python's Unicode lowercasing.) -/
def pyLower (s : String) : String := String.mk (s.data.map Char.toLower)

/-- is_read_only from server.py: the READ_ONLY variable (default "true"),
lowercased, is one of "true", "1", "yes".  Read from the environment on
every call; never stored in the configuration. -/
def is_read_only (env : Env) : Bool :=
  let v := pyLower (getenvD env "READ_ONLY" "true")
  v == "true" || v == "1" || v == "yes"

/-- The only error shape the server raises itself: ValueError(message). -/
inductive PyErr where
  | valueError (msg : String)

/-- Message raised by validate_read_only. -/
def readOnlyMsg : String :=
  "Server is in read-only mode - write operations are not allowed"

/-- Message raised when neither id nor kod is supplied to update/delete. -/
def idKodMsg : String := "Either id or kod must be provided"

/-- CPython message for int() applied to a non-numeric string. -/
def intErrMsg (s : String) : String :=
  "invalid literal for int() with base 10: '" ++ s ++ "'"

/-- validate_read_only from server.py: raises ValueError in read-only mode. -/
def validate_read_only (env : Env) : Except PyErr Unit :=
  if is_read_only env then .error (.valueError readOnlyMsg) else .ok ()

/-- The resolved configuration dictionary built by get_abraflexi_config. -/
structure Config where
  url : String
  company : String
  user : Option String
  password : Option String
  authSessionId : Option String
  timeout : Int

/-- get_abraflexi_config from server.py, acting on the module-level cache:
if the cache is filled it is returned as-is; otherwise ABRAFLEXI_URL and
ABRAFLEXI_COMPANY are checked for truthiness, the dictionary (including
int(ABRAFLEXI_TIMEOUT or "300")) is built and assigned to the global, and
only then the authentication combination is validated — so an
authentication failure leaves the global assigned (second component). -/
def get_abraflexi_config (env : Env) (cache : Option Config) :
    Except PyErr Config × Option Config :=
  match cache with
  | some cfg => (.ok cfg, some cfg)
  | none =>
    let url := getenv env "ABRAFLEXI_URL"
    let company := getenv env "ABRAFLEXI_COMPANY"
    if !truthyS url then
      (.error (.valueError "ABRAFLEXI_URL environment variable is required"), none)
    else if !truthyS company then
      (.error (.valueError "ABRAFLEXI_COMPANY environment variable is required"), none)
    else
      let tStr := getenvD env "ABRAFLEXI_TIMEOUT" "300"
      match pythonInt tStr with
      | none => (.error (.valueError (intErrMsg tStr)), none)
      | some t =>
        let cfg : Config :=
          ⟨url.getD "", company.getD "", getenv env "ABRAFLEXI_LOGIN",
           getenv env "ABRAFLEXI_PASSWORD", getenv env "ABRAFLEXI_AUTHSESSID", t⟩
        if !truthyS cfg.authSessionId &&
            !(truthyS cfg.user && truthyS cfg.password) then
          (.error (.valueError
            "Either ABRAFLEXI_AUTHSESSID or ABRAFLEXI_LOGIN/ABRAFLEXI_PASSWORD must be set"),
           some cfg)
        else (.ok cfg, some cfg)

/-- The identifier handed to client.load_from_abraflexi: either the Python
int produced from the id argument or the "code:..." string built from kod. -/
inductive PIdent where
  | intId (n : Int)
  | strId (s : String)

/-- str(identifier), as interpolated into the not-found error message. -/
def identStr : PIdent → String
  | .intId n => toString n
  | .strId s => s

/-- `identifier = int(id) if id else f"code:..."` (after the id/kod
validation); int() on a malformed id raises. -/
def py_identifier (id kod : Option String) : Except PyErr PIdent :=
  if truthyS id then
    match pythonInt (id.getD "") with
    | some n => .ok (.intId n)
    | none => .error (.valueError (intErrMsg (id.getD "")))
  else .ok (.strId ("code:" ++ kod.getD ""))

/-- Access mode of a python-abraflexi client handle. -/
inductive Mode where
  | readOnly
  | readWrite

/-- One observable interaction with the external client library: handle
construction, attribute assignments, and remote-calling method invocations. -/
inductive ClientEvent where
  | newClient (mode : Mode) (evidence : String)
  | setFilter (expr : String)
  | setParam (key : String) (value : PyVal)
  | setDataValue (key : String) (value : PyVal)
  | loadRecord (ident : PIdent)
  | getAll
  | insertRecord
  | updateRecord
  | deleteRecord

/-- Oracle for the remote system as seen through the client library:
presence of records by identifier, fetched data, write outcomes and the
identifier assigned by the last insert. -/
structure Remote where
  loadOk : String → PIdent → Bool
  getAllResult : String → PyVal
  insertOk : String → Bool
  lastInsertedId : PyVal
  updateOk : String → Bool
  deleteOk : String → Bool

/-- Outcome of one tool call: the returned/raised value, the configuration
cache after the call, and the trace of client interactions in order. -/
structure ToolOut where
  result : Except PyErr String
  cache : Option Config
  events : List ClientEvent

/-- get_readonly_client from server.py: resolve the configuration, then
construct a fresh ReadOnly handle for the evidence. -/
def get_readonly_client (env : Env) (cache : Option Config) (evidence : String) :
    Except PyErr Config × Option Config × List ClientEvent :=
  match get_abraflexi_config env cache with
  | (.error e, c2) => (.error e, c2, [])
  | (.ok cfg, c2) => (.ok cfg, c2, [.newClient .readOnly evidence])

/-- get_readwrite_client from server.py: resolve the configuration, then
construct a fresh ReadWrite handle for the evidence. -/
def get_readwrite_client (env : Env) (cache : Option Config) (evidence : String) :
    Except PyErr Config × Option Config × List ClientEvent :=
  match get_abraflexi_config env cache with
  | (.error e, c2) => (.error e, c2, [])
  | (.ok cfg, c2) => (.ok cfg, c2, [.newClient .readWrite evidence])

/-- invoice_issued_get from server.py: fresh read-only client for
"faktura-vydana", filter from ids and kod joined with " AND ", detail and
(truthy) limit URL parameters, then get_all_from_abraflexi. -/
def invoice_issued_get (env : Env) (cache : Option Config) (remote : Remote)
    (ids : Option (List String)) (kod : Option String)
    (limit : Option Int) (detail : String) : ToolOut :=
  match get_readonly_client env cache "faktura-vydana" with
  | (.error e, c2, evs) => ⟨.error e, c2, evs⟩
  | (.ok _, c2, evs) =>
    let filters : List String :=
      (if truthyL ids then
        ["id in (" ++ String.intercalate "," (ids.getD []) ++ ")"] else [])
      ++ (if truthyS kod then ["kod='" ++ kod.getD "" ++ "'"] else [])
    let filterEvents : List ClientEvent :=
      if filters.isEmpty then [] else [.setFilter (String.intercalate " AND " filters)]
    let paramEvents : List ClientEvent :=
      [.setParam "detail" (.pstr detail)]
      ++ (if truthyI limit then [.setParam "limit" (.pint (limit.getD 0))] else [])
    ⟨.ok (format_response (remote.getAllResult "faktura-vydana")), c2,
      evs ++ filterEvents ++ paramEvents ++ [.getAll]⟩

/-- invoice_issued_create from server.py: read-only gate, fresh read-write
client, required fields kod and firma, optional datVyst and polozkyFaktury,
extra fields in mapping order, then insert_to_abraflexi. -/
def invoice_issued_create (env : Env) (cache : Option Config) (remote : Remote)
    (kod firma : String) (datum_vystaveni : Option String)
    (polozky : Option (List PyVal))
    (extra_fields : Option (List (String × PyVal))) : ToolOut :=
  match validate_read_only env with
  | .error e => ⟨.error e, cache, []⟩
  | .ok _ =>
    match get_readwrite_client env cache "faktura-vydana" with
    | (.error e, c2, evs) => ⟨.error e, c2, evs⟩
    | (.ok _, c2, evs) =>
      let writes : List (String × PyVal) :=
        [("kod", .pstr kod), ("firma", .pstr firma)]
        ++ (if truthyS datum_vystaveni then
              [("datVyst", .pstr (datum_vystaveni.getD ""))] else [])
        ++ (if truthyPL polozky then
              [("polozkyFaktury", .plist (polozky.getD []))] else [])
        ++ dictItems extra_fields
      ⟨.ok (format_response (.pdict
          [("success", .pbool (remote.insertOk "faktura-vydana")),
           ("id", remote.lastInsertedId), ("kod", .pstr kod)])), c2,
        evs ++ writes.map (fun kv => .setDataValue kv.1 kv.2) ++ [.insertRecord]⟩

/-- invoice_issued_update from server.py: read-only gate, id/kod validation,
identifier resolution, fresh read-write client, load (not-found error on a
failed load), data fields, then update. -/
def invoice_issued_update (env : Env) (cache : Option Config) (remote : Remote)
    (id kod : Option String) (data : Option (List (String × PyVal))) : ToolOut :=
  match validate_read_only env with
  | .error e => ⟨.error e, cache, []⟩
  | .ok _ =>
    if !truthyS id && !truthyS kod then ⟨.error (.valueError idKodMsg), cache, []⟩
    else match py_identifier id kod with
    | .error e => ⟨.error e, cache, []⟩
    | .ok ident =>
      match get_readwrite_client env cache "faktura-vydana" with
      | (.error e, c2, evs) => ⟨.error e, c2, evs⟩
      | (.ok _, c2, evs) =>
        if !remote.loadOk "faktura-vydana" ident then
          ⟨.error (.valueError ("Invoice not found: " ++ identStr ident)), c2,
            evs ++ [.loadRecord ident]⟩
        else
          ⟨.ok (format_response (.pdict
              [("success", .pbool (remote.updateOk "faktura-vydana"))])), c2,
            evs ++ [.loadRecord ident]
              ++ (dictItems data).map (fun kv => .setDataValue kv.1 kv.2)
              ++ [.updateRecord]⟩

/-- invoice_issued_delete from server.py: read-only gate, id/kod validation,
identifier resolution, fresh read-write client, load, then delete. -/
def invoice_issued_delete (env : Env) (cache : Option Config) (remote : Remote)
    (id kod : Option String) : ToolOut :=
  match validate_read_only env with
  | .error e => ⟨.error e, cache, []⟩
  | .ok _ =>
    if !truthyS id && !truthyS kod then ⟨.error (.valueError idKodMsg), cache, []⟩
    else match py_identifier id kod with
    | .error e => ⟨.error e, cache, []⟩
    | .ok ident =>
      match get_readwrite_client env cache "faktura-vydana" with
      | (.error e, c2, evs) => ⟨.error e, c2, evs⟩
      | (.ok _, c2, evs) =>
        if !remote.loadOk "faktura-vydana" ident then
          ⟨.error (.valueError ("Invoice not found: " ++ identStr ident)), c2,
            evs ++ [.loadRecord ident]⟩
        else
          ⟨.ok (format_response (.pdict
              [("success", .pbool (remote.deleteOk "faktura-vydana"))])), c2,
            evs ++ [.loadRecord ident, .deleteRecord]⟩

/-- invoice_received_get from server.py; same shape as invoice_issued_get
for evidence "faktura-prijata". -/
def invoice_received_get (env : Env) (cache : Option Config) (remote : Remote)
    (ids : Option (List String)) (kod : Option String)
    (limit : Option Int) (detail : String) : ToolOut :=
  match get_readonly_client env cache "faktura-prijata" with
  | (.error e, c2, evs) => ⟨.error e, c2, evs⟩
  | (.ok _, c2, evs) =>
    let filters : List String :=
      (if truthyL ids then
        ["id in (" ++ String.intercalate "," (ids.getD []) ++ ")"] else [])
      ++ (if truthyS kod then ["kod='" ++ kod.getD "" ++ "'"] else [])
    let filterEvents : List ClientEvent :=
      if filters.isEmpty then [] else [.setFilter (String.intercalate " AND " filters)]
    let paramEvents : List ClientEvent :=
      [.setParam "detail" (.pstr detail)]
      ++ (if truthyI limit then [.setParam "limit" (.pint (limit.getD 0))] else [])
    ⟨.ok (format_response (remote.getAllResult "faktura-prijata")), c2,
      evs ++ filterEvents ++ paramEvents ++ [.getAll]⟩

/-- invoice_received_create from server.py; same shape as
invoice_issued_create for evidence "faktura-prijata". -/
def invoice_received_create (env : Env) (cache : Option Config) (remote : Remote)
    (kod firma : String) (datum_vystaveni : Option String)
    (polozky : Option (List PyVal))
    (extra_fields : Option (List (String × PyVal))) : ToolOut :=
  match validate_read_only env with
  | .error e => ⟨.error e, cache, []⟩
  | .ok _ =>
    match get_readwrite_client env cache "faktura-prijata" with
    | (.error e, c2, evs) => ⟨.error e, c2, evs⟩
    | (.ok _, c2, evs) =>
      let writes : List (String × PyVal) :=
        [("kod", .pstr kod), ("firma", .pstr firma)]
        ++ (if truthyS datum_vystaveni then
              [("datVyst", .pstr (datum_vystaveni.getD ""))] else [])
        ++ (if truthyPL polozky then
              [("polozkyFaktury", .plist (polozky.getD []))] else [])
        ++ dictItems extra_fields
      ⟨.ok (format_response (.pdict
          [("success", .pbool (remote.insertOk "faktura-prijata")),
           ("id", remote.lastInsertedId), ("kod", .pstr kod)])), c2,
        evs ++ writes.map (fun kv => .setDataValue kv.1 kv.2) ++ [.insertRecord]⟩

/-- contact_get from server.py: filter from ids, kod and nazev (substring
pattern) joined with " AND " on evidence "adresar". -/
def contact_get (env : Env) (cache : Option Config) (remote : Remote)
    (ids : Option (List String)) (kod : Option String) (nazev : Option String)
    (limit : Option Int) (detail : String) : ToolOut :=
  match get_readonly_client env cache "adresar" with
  | (.error e, c2, evs) => ⟨.error e, c2, evs⟩
  | (.ok _, c2, evs) =>
    let filters : List String :=
      (if truthyL ids then
        ["id in (" ++ String.intercalate "," (ids.getD []) ++ ")"] else [])
      ++ (if truthyS kod then ["kod='" ++ kod.getD "" ++ "'"] else [])
      ++ (if truthyS nazev then ["nazev like '*" ++ nazev.getD "" ++ "*'"] else [])
    let filterEvents : List ClientEvent :=
      if filters.isEmpty then [] else [.setFilter (String.intercalate " AND " filters)]
    let paramEvents : List ClientEvent :=
      [.setParam "detail" (.pstr detail)]
      ++ (if truthyI limit then [.setParam "limit" (.pint (limit.getD 0))] else [])
    ⟨.ok (format_response (remote.getAllResult "adresar")), c2,
      evs ++ filterEvents ++ paramEvents ++ [.getAll]⟩

/-- contact_create from server.py: required kod and nazev, optional email
and tel, extra fields afterwards, then insert. -/
def contact_create (env : Env) (cache : Option Config) (remote : Remote)
    (kod nazev : String) (email tel : Option String)
    (extra_fields : Option (List (String × PyVal))) : ToolOut :=
  match validate_read_only env with
  | .error e => ⟨.error e, cache, []⟩
  | .ok _ =>
    match get_readwrite_client env cache "adresar" with
    | (.error e, c2, evs) => ⟨.error e, c2, evs⟩
    | (.ok _, c2, evs) =>
      let writes : List (String × PyVal) :=
        [("kod", .pstr kod), ("nazev", .pstr nazev)]
        ++ (if truthyS email then [("email", .pstr (email.getD ""))] else [])
        ++ (if truthyS tel then [("tel", .pstr (tel.getD ""))] else [])
        ++ dictItems extra_fields
      ⟨.ok (format_response (.pdict
          [("success", .pbool (remote.insertOk "adresar")),
           ("id", remote.lastInsertedId), ("kod", .pstr kod)])), c2,
        evs ++ writes.map (fun kv => .setDataValue kv.1 kv.2) ++ [.insertRecord]⟩

/-- contact_update from server.py. -/
def contact_update (env : Env) (cache : Option Config) (remote : Remote)
    (id kod : Option String) (data : Option (List (String × PyVal))) : ToolOut :=
  match validate_read_only env with
  | .error e => ⟨.error e, cache, []⟩
  | .ok _ =>
    if !truthyS id && !truthyS kod then ⟨.error (.valueError idKodMsg), cache, []⟩
    else match py_identifier id kod with
    | .error e => ⟨.error e, cache, []⟩
    | .ok ident =>
      match get_readwrite_client env cache "adresar" with
      | (.error e, c2, evs) => ⟨.error e, c2, evs⟩
      | (.ok _, c2, evs) =>
        if !remote.loadOk "adresar" ident then
          ⟨.error (.valueError ("Contact not found: " ++ identStr ident)), c2,
            evs ++ [.loadRecord ident]⟩
        else
          ⟨.ok (format_response (.pdict
              [("success", .pbool (remote.updateOk "adresar"))])), c2,
            evs ++ [.loadRecord ident]
              ++ (dictItems data).map (fun kv => .setDataValue kv.1 kv.2)
              ++ [.updateRecord]⟩

/-- contact_delete from server.py. -/
def contact_delete (env : Env) (cache : Option Config) (remote : Remote)
    (id kod : Option String) : ToolOut :=
  match validate_read_only env with
  | .error e => ⟨.error e, cache, []⟩
  | .ok _ =>
    if !truthyS id && !truthyS kod then ⟨.error (.valueError idKodMsg), cache, []⟩
    else match py_identifier id kod with
    | .error e => ⟨.error e, cache, []⟩
    | .ok ident =>
      match get_readwrite_client env cache "adresar" with
      | (.error e, c2, evs) => ⟨.error e, c2, evs⟩
      | (.ok _, c2, evs) =>
        if !remote.loadOk "adresar" ident then
          ⟨.error (.valueError ("Contact not found: " ++ identStr ident)), c2,
            evs ++ [.loadRecord ident]⟩
        else
          ⟨.ok (format_response (.pdict
              [("success", .pbool (remote.deleteOk "adresar"))])), c2,
            evs ++ [.loadRecord ident, .deleteRecord]⟩

/-- product_get from server.py: same filter shape as contact_get on
evidence "cenik". -/
def product_get (env : Env) (cache : Option Config) (remote : Remote)
    (ids : Option (List String)) (kod : Option String) (nazev : Option String)
    (limit : Option Int) (detail : String) : ToolOut :=
  match get_readonly_client env cache "cenik" with
  | (.error e, c2, evs) => ⟨.error e, c2, evs⟩
  | (.ok _, c2, evs) =>
    let filters : List String :=
      (if truthyL ids then
        ["id in (" ++ String.intercalate "," (ids.getD []) ++ ")"] else [])
      ++ (if truthyS kod then ["kod='" ++ kod.getD "" ++ "'"] else [])
      ++ (if truthyS nazev then ["nazev like '*" ++ nazev.getD "" ++ "*'"] else [])
    let filterEvents : List ClientEvent :=
      if filters.isEmpty then [] else [.setFilter (String.intercalate " AND " filters)]
    let paramEvents : List ClientEvent :=
      [.setParam "detail" (.pstr detail)]
      ++ (if truthyI limit then [.setParam "limit" (.pint (limit.getD 0))] else [])
    ⟨.ok (format_response (remote.getAllResult "cenik")), c2,
      evs ++ filterEvents ++ paramEvents ++ [.getAll]⟩

/-- product_create from server.py: required kod and nazev, cenaZakl set only
when cena is not None (an `is not None` check, not truthiness), extra fields
afterwards, then insert. -/
def product_create (env : Env) (cache : Option Config) (remote : Remote)
    (kod nazev : String) (cena : Option PyVal)
    (extra_fields : Option (List (String × PyVal))) : ToolOut :=
  match validate_read_only env with
  | .error e => ⟨.error e, cache, []⟩
  | .ok _ =>
    match get_readwrite_client env cache "cenik" with
    | (.error e, c2, evs) => ⟨.error e, c2, evs⟩
    | (.ok _, c2, evs) =>
      let writes : List (String × PyVal) :=
        [("kod", .pstr kod), ("nazev", .pstr nazev)]
        ++ (match cena with
            | some c => [("cenaZakl", c)]
            | none => [])
        ++ dictItems extra_fields
      ⟨.ok (format_response (.pdict
          [("success", .pbool (remote.insertOk "cenik")),
           ("id", remote.lastInsertedId), ("kod", .pstr kod)])), c2,
        evs ++ writes.map (fun kv => .setDataValue kv.1 kv.2) ++ [.insertRecord]⟩

/-- product_update from server.py. -/
def product_update (env : Env) (cache : Option Config) (remote : Remote)
    (id kod : Option String) (data : Option (List (String × PyVal))) : ToolOut :=
  match validate_read_only env with
  | .error e => ⟨.error e, cache, []⟩
  | .ok _ =>
    if !truthyS id && !truthyS kod then ⟨.error (.valueError idKodMsg), cache, []⟩
    else match py_identifier id kod with
    | .error e => ⟨.error e, cache, []⟩
    | .ok ident =>
      match get_readwrite_client env cache "cenik" with
      | (.error e, c2, evs) => ⟨.error e, c2, evs⟩
      | (.ok _, c2, evs) =>
        if !remote.loadOk "cenik" ident then
          ⟨.error (.valueError ("Product not found: " ++ identStr ident)), c2,
            evs ++ [.loadRecord ident]⟩
        else
          ⟨.ok (format_response (.pdict
              [("success", .pbool (remote.updateOk "cenik"))])), c2,
            evs ++ [.loadRecord ident]
              ++ (dictItems data).map (fun kv => .setDataValue kv.1 kv.2)
              ++ [.updateRecord]⟩

/-- product_delete from server.py. -/
def product_delete (env : Env) (cache : Option Config) (remote : Remote)
    (id kod : Option String) : ToolOut :=
  match validate_read_only env with
  | .error e => ⟨.error e, cache, []⟩
  | .ok _ =>
    if !truthyS id && !truthyS kod then ⟨.error (.valueError idKodMsg), cache, []⟩
    else match py_identifier id kod with
    | .error e => ⟨.error e, cache, []⟩
    | .ok ident =>
      match get_readwrite_client env cache "cenik" with
      | (.error e, c2, evs) => ⟨.error e, c2, evs⟩
      | (.ok _, c2, evs) =>
        if !remote.loadOk "cenik" ident then
          ⟨.error (.valueError ("Product not found: " ++ identStr ident)), c2,
            evs ++ [.loadRecord ident]⟩
        else
          ⟨.ok (format_response (.pdict
              [("success", .pbool (remote.deleteOk "cenik"))])), c2,
            evs ++ [.loadRecord ident, .deleteRecord]⟩

/-- bank_transaction_get from server.py: only the ids filter, on "banka". -/
def bank_transaction_get (env : Env) (cache : Option Config) (remote : Remote)
    (ids : Option (List String)) (limit : Option Int) (detail : String) : ToolOut :=
  match get_readonly_client env cache "banka" with
  | (.error e, c2, evs) => ⟨.error e, c2, evs⟩
  | (.ok _, c2, evs) =>
    let filterEvents : List ClientEvent :=
      if truthyL ids then
        [.setFilter ("id in (" ++ String.intercalate "," (ids.getD []) ++ ")")]
      else []
    let paramEvents : List ClientEvent :=
      [.setParam "detail" (.pstr detail)]
      ++ (if truthyI limit then [.setParam "limit" (.pint (limit.getD 0))] else [])
    ⟨.ok (format_response (remote.getAllResult "banka")), c2,
      evs ++ filterEvents ++ paramEvents ++ [.getAll]⟩

/-- bank_transaction_create from server.py: required banka, datum, castka,
optional popis, extra fields afterwards, then insert; the result envelope
has success and id (no kod). -/
def bank_transaction_create (env : Env) (cache : Option Config) (remote : Remote)
    (banka datum : String) (castka : PyVal) (popis : Option String)
    (extra_fields : Option (List (String × PyVal))) : ToolOut :=
  match validate_read_only env with
  | .error e => ⟨.error e, cache, []⟩
  | .ok _ =>
    match get_readwrite_client env cache "banka" with
    | (.error e, c2, evs) => ⟨.error e, c2, evs⟩
    | (.ok _, c2, evs) =>
      let writes : List (String × PyVal) :=
        [("banka", .pstr banka), ("datum", .pstr datum), ("castka", castka)]
        ++ (if truthyS popis then [("popis", .pstr (popis.getD ""))] else [])
        ++ dictItems extra_fields
      ⟨.ok (format_response (.pdict
          [("success", .pbool (remote.insertOk "banka")),
           ("id", remote.lastInsertedId)])), c2,
        evs ++ writes.map (fun kv => .setDataValue kv.1 kv.2) ++ [.insertRecord]⟩

/-- evidence_get from server.py: caller-chosen evidence; ids filter if ids
is truthy, otherwise the raw filter expression if truthy. -/
def evidence_get (env : Env) (cache : Option Config) (remote : Remote)
    (evidence : String) (ids : Option (List String)) (filter_expr : Option String)
    (limit : Option Int) (detail : String) : ToolOut :=
  match get_readonly_client env cache evidence with
  | (.error e, c2, evs) => ⟨.error e, c2, evs⟩
  | (.ok _, c2, evs) =>
    let filterEvents : List ClientEvent :=
      if truthyL ids then
        [.setFilter ("id in (" ++ String.intercalate "," (ids.getD []) ++ ")")]
      else if truthyS filter_expr then [.setFilter (filter_expr.getD "")]
      else []
    let paramEvents : List ClientEvent :=
      [.setParam "detail" (.pstr detail)]
      ++ (if truthyI limit then [.setParam "limit" (.pint (limit.getD 0))] else [])
    ⟨.ok (format_response (remote.getAllResult evidence)), c2,
      evs ++ filterEvents ++ paramEvents ++ [.getAll]⟩

/-- evidence_create from server.py: every entry of the required data mapping
is written in iteration order, then insert. -/
def evidence_create (env : Env) (cache : Option Config) (remote : Remote)
    (evidence : String) (data : List (String × PyVal)) : ToolOut :=
  match validate_read_only env with
  | .error e => ⟨.error e, cache, []⟩
  | .ok _ =>
    match get_readwrite_client env cache evidence with
    | (.error e, c2, evs) => ⟨.error e, c2, evs⟩
    | (.ok _, c2, evs) =>
      ⟨.ok (format_response (.pdict
          [("success", .pbool (remote.insertOk evidence)),
           ("id", remote.lastInsertedId)])), c2,
        evs ++ data.map (fun kv => .setDataValue kv.1 kv.2) ++ [.insertRecord]⟩

/-- evidence_update from server.py. -/
def evidence_update (env : Env) (cache : Option Config) (remote : Remote)
    (evidence : String) (id kod : Option String)
    (data : Option (List (String × PyVal))) : ToolOut :=
  match validate_read_only env with
  | .error e => ⟨.error e, cache, []⟩
  | .ok _ =>
    if !truthyS id && !truthyS kod then ⟨.error (.valueError idKodMsg), cache, []⟩
    else match py_identifier id kod with
    | .error e => ⟨.error e, cache, []⟩
    | .ok ident =>
      match get_readwrite_client env cache evidence with
      | (.error e, c2, evs) => ⟨.error e, c2, evs⟩
      | (.ok _, c2, evs) =>
        if !remote.loadOk evidence ident then
          ⟨.error (.valueError
              ("Record not found in " ++ evidence ++ ": " ++ identStr ident)), c2,
            evs ++ [.loadRecord ident]⟩
        else
          ⟨.ok (format_response (.pdict
              [("success", .pbool (remote.updateOk evidence))])), c2,
            evs ++ [.loadRecord ident]
              ++ (dictItems data).map (fun kv => .setDataValue kv.1 kv.2)
              ++ [.updateRecord]⟩

/-- evidence_delete from server.py. -/
def evidence_delete (env : Env) (cache : Option Config) (remote : Remote)
    (evidence : String) (id kod : Option String) : ToolOut :=
  match validate_read_only env with
  | .error e => ⟨.error e, cache, []⟩
  | .ok _ =>
    if !truthyS id && !truthyS kod then ⟨.error (.valueError idKodMsg), cache, []⟩
    else match py_identifier id kod with
    | .error e => ⟨.error e, cache, []⟩
    | .ok ident =>
      match get_readwrite_client env cache evidence with
      | (.error e, c2, evs) => ⟨.error e, c2, evs⟩
      | (.ok _, c2, evs) =>
        if !remote.loadOk evidence ident then
          ⟨.error (.valueError
              ("Record not found in " ++ evidence ++ ": " ++ identStr ident)), c2,
            evs ++ [.loadRecord ident]⟩
        else
          ⟨.ok (format_response (.pdict
              [("success", .pbool (remote.deleteOk evidence))])), c2,
            evs ++ [.loadRecord ident, .deleteRecord]⟩

/-- First filter expression assigned on the client in a trace, if any. -/
def setFilterOf : List ClientEvent → Option String
  | [] => none
  | .setFilter f :: _ => some f
  | _ :: es => setFilterOf es

/-- First URL parameter assigned under the given key in a trace, if any. -/
def setParamOf (key : String) : List ClientEvent → Option PyVal
  | [] => none
  | .setParam k v :: es => if k == key then some v else setParamOf key es
  | _ :: es => setParamOf key es

/-- All identifiers passed to load_from_abraflexi in a trace, in order. -/
def loadsOf : List ClientEvent → List PIdent :=
  List.filterMap (fun e => match e with | .loadRecord i => some i | _ => none)

/-- All set_data_value writes in a trace, in order. -/
def setDataWrites : List ClientEvent → List (String × PyVal) :=
  List.filterMap (fun e => match e with | .setDataValue k v => some (k, v) | _ => none)

/-- The mutating remote calls (insert, update, delete) in a trace. -/
def mutationsOf : List ClientEvent → List ClientEvent :=
  List.filter (fun e => match e with
    | .insertRecord => true
    | .updateRecord => true
    | .deleteRecord => true
    | _ => false)

/-- Value attached to the last write of key k in a write list: the dict
semantics of the client field buffer (later writes overwrite earlier ones). -/
def lastField (ws : List (String × PyVal)) (k : String) : Option PyVal :=
  ((ws.filter (fun kv => kv.1 == k)).getLast?).map (fun kv => kv.2)

/-- Field buffer content for key k after replaying a trace. -/
def bufferVal (events : List ClientEvent) (k : String) : Option PyVal :=
  lastField (setDataWrites events) k

/-- A remote oracle on which nothing exists and every write succeeds. -/
def remoteTriv : Remote :=
  ⟨fun _ _ => false, fun _ => .plist [], fun _ => true, .pint 7,
   fun _ => true, fun _ => true⟩

/-- A concrete environment with read-only mode disabled and a complete
session-token configuration. -/
def envRW : Env :=
  [("ABRAFLEXI_URL", "https://demo.flexibee.eu"),
   ("ABRAFLEXI_COMPANY", "demo_de"),
   ("ABRAFLEXI_AUTHSESSID", "sess"),
   ("READ_ONLY", "false")]

/-- The configuration that envRW resolves to. -/
def cfgRW : Config :=
  ⟨"https://demo.flexibee.eu", "demo_de", none, none, some "sess", 300⟩

theorem envRW_not_read_only : is_read_only envRW = false := rfl

theorem envRW_config : get_abraflexi_config envRW none = (.ok cfgRW, some cfgRW) := rfl

/-- In read-only mode validate_read_only raises the permission ValueError. -/
theorem validate_read_only_blocks (env : Env) (h : is_read_only env = true) :
    validate_read_only env = .error (.valueError readOnlyMsg) := by
  simp [validate_read_only, h]

/-- With read-only mode disabled validate_read_only returns normally. -/
theorem validate_read_only_passes (env : Env) (h : is_read_only env = false) :
    validate_read_only env = .ok () := by
  simp [validate_read_only, h]

/-- C1: whenever read-only mode is enabled (READ_ONLY unset, or set to a
case-insensitive "true", "1" or "yes", which is what is_read_only computes
from the environment of the call itself), every create/update/delete tool
fails with the permission ValueError while the client trace stays empty (no
client handle constructed, no load or write method invoked) and the
configuration cache is untouched; the statement holds for every cached
configuration, so the flag is re-read per call, never taken from the
configuration. -/
theorem c1_read_only_gate (env : Env) (cache : Option Config) (remote : Remote)
    (h : is_read_only env = true) :
    (∀ kod firma dv pol ef,
        invoice_issued_create env cache remote kod firma dv pol ef
          = ⟨.error (.valueError readOnlyMsg), cache, []⟩)
  ∧ (∀ id kod data,
        invoice_issued_update env cache remote id kod data
          = ⟨.error (.valueError readOnlyMsg), cache, []⟩)
  ∧ (∀ id kod,
        invoice_issued_delete env cache remote id kod
          = ⟨.error (.valueError readOnlyMsg), cache, []⟩)
  ∧ (∀ kod firma dv pol ef,
        invoice_received_create env cache remote kod firma dv pol ef
          = ⟨.error (.valueError readOnlyMsg), cache, []⟩)
  ∧ (∀ kod nazev email tel ef,
        contact_create env cache remote kod nazev email tel ef
          = ⟨.error (.valueError readOnlyMsg), cache, []⟩)
  ∧ (∀ id kod data,
        contact_update env cache remote id kod data
          = ⟨.error (.valueError readOnlyMsg), cache, []⟩)
  ∧ (∀ id kod,
        contact_delete env cache remote id kod
          = ⟨.error (.valueError readOnlyMsg), cache, []⟩)
  ∧ (∀ kod nazev cena ef,
        product_create env cache remote kod nazev cena ef
          = ⟨.error (.valueError readOnlyMsg), cache, []⟩)
  ∧ (∀ id kod data,
        product_update env cache remote id kod data
          = ⟨.error (.valueError readOnlyMsg), cache, []⟩)
  ∧ (∀ id kod,
        product_delete env cache remote id kod
          = ⟨.error (.valueError readOnlyMsg), cache, []⟩)
  ∧ (∀ banka datum castka popis ef,
        bank_transaction_create env cache remote banka datum castka popis ef
          = ⟨.error (.valueError readOnlyMsg), cache, []⟩)
  ∧ (∀ evidence data,
        evidence_create env cache remote evidence data
          = ⟨.error (.valueError readOnlyMsg), cache, []⟩)
  ∧ (∀ evidence id kod data,
        evidence_update env cache remote evidence id kod data
          = ⟨.error (.valueError readOnlyMsg), cache, []⟩)
  ∧ (∀ evidence id kod,
        evidence_delete env cache remote evidence id kod
          = ⟨.error (.valueError readOnlyMsg), cache, []⟩) := by
  refine ⟨?_, ?_, ?_, ?_, ?_, ?_, ?_, ?_, ?_, ?_, ?_, ?_, ?_, ?_⟩ <;> intros <;>
    simp [invoice_issued_create, invoice_issued_update, invoice_issued_delete,
          invoice_received_create, contact_create, contact_update, contact_delete,
          product_create, product_update, product_delete, bank_transaction_create,
          evidence_create, evidence_update, evidence_delete,
          validate_read_only, h]

/-- C1 witness: with READ_ONLY set to the mixed-case "TRUE" and an empty
cache, contact_create is blocked with the permission error, no events and
an unchanged cache. -/
theorem c1_read_only_gate_witness :
    is_read_only [("READ_ONLY", "TRUE")] = true ∧
    contact_create [("READ_ONLY", "TRUE")] none remoteTriv "C1" "Name" none none none
      = ⟨.error (.valueError readOnlyMsg), none, []⟩ :=
  ⟨rfl, (c1_read_only_gate [("READ_ONLY", "TRUE")] none remoteTriv
      rfl).2.2.2.2.1 "C1" "Name" none none none⟩

/-- C3: with read-only mode disabled, every update/delete tool called with
neither id nor kod (each absent or empty, i.e. Python-falsy) fails with the
validation ValueError before anything else happens: the client trace is
empty (no handle, no load, no remote call of any kind) and the
configuration cache is untouched. -/
theorem c3_missing_identifier (env : Env) (cache : Option Config) (remote : Remote)
    (h0 : is_read_only env = false)
    (id kod : Option String) (h1 : truthyS id = false) (h2 : truthyS kod = false) :
    (∀ data, invoice_issued_update env cache remote id kod data
        = ⟨.error (.valueError idKodMsg), cache, []⟩)
  ∧ (invoice_issued_delete env cache remote id kod
        = ⟨.error (.valueError idKodMsg), cache, []⟩)
  ∧ (∀ data, contact_update env cache remote id kod data
        = ⟨.error (.valueError idKodMsg), cache, []⟩)
  ∧ (contact_delete env cache remote id kod
        = ⟨.error (.valueError idKodMsg), cache, []⟩)
  ∧ (∀ data, product_update env cache remote id kod data
        = ⟨.error (.valueError idKodMsg), cache, []⟩)
  ∧ (product_delete env cache remote id kod
        = ⟨.error (.valueError idKodMsg), cache, []⟩)
  ∧ (∀ evidence data, evidence_update env cache remote evidence id kod data
        = ⟨.error (.valueError idKodMsg), cache, []⟩)
  ∧ (∀ evidence, evidence_delete env cache remote evidence id kod
        = ⟨.error (.valueError idKodMsg), cache, []⟩) := by
  refine ⟨?_, ?_, ?_, ?_, ?_, ?_, ?_, ?_⟩ <;> intros <;>
    simp [invoice_issued_update, invoice_issued_delete, contact_update,
          contact_delete, product_update, product_delete, evidence_update,
          evidence_delete, validate_read_only, h0, h1, h2]

/-- C3 witness: id absent and kod the empty string, read-only disabled:
evidence_delete fails with the validation error and an empty trace. -/
theorem c3_missing_identifier_witness :
    is_read_only envRW = false ∧ truthyS (some "") = false ∧
    evidence_delete envRW (some cfgRW) remoteTriv "adresar" none (some "")
      = ⟨.error (.valueError idKodMsg), some cfgRW, []⟩ :=
  ⟨rfl, rfl, (c3_missing_identifier envRW (some cfgRW) remoteTriv rfl
      none (some "") rfl rfl).2.2.2.2.2.2.2 "adresar"⟩

/-- C2: with read-only mode disabled, a resolvable identifier and a resolved
configuration, every update/delete tool whose load-by-identifier reports the
record absent fails with the not-found ValueError whose message is the
tool's prefix followed by the resolved identifier; the complete client trace
is exactly one handle construction followed by exactly one load — so there
is exactly one load attempt and the remote update/delete (or any other
mutating call) is never invoked. -/
theorem c2_not_found (env : Env) (cache : Option Config) (remote : Remote)
    (cfg : Config) (cache2 : Option Config)
    (h0 : is_read_only env = false)
    (hc : get_abraflexi_config env cache = (.ok cfg, cache2))
    (id kod : Option String) (ident : PIdent)
    (hv : (!truthyS id && !truthyS kod) = false)
    (hid : py_identifier id kod = .ok ident) :
    (remote.loadOk "faktura-vydana" ident = false →
      (∀ data, invoice_issued_update env cache remote id kod data
        = ⟨.error (.valueError ("Invoice not found: " ++ identStr ident)), cache2,
           [.newClient .readWrite "faktura-vydana", .loadRecord ident]⟩)
      ∧ invoice_issued_delete env cache remote id kod
        = ⟨.error (.valueError ("Invoice not found: " ++ identStr ident)), cache2,
           [.newClient .readWrite "faktura-vydana", .loadRecord ident]⟩)
  ∧ (remote.loadOk "adresar" ident = false →
      (∀ data, contact_update env cache remote id kod data
        = ⟨.error (.valueError ("Contact not found: " ++ identStr ident)), cache2,
           [.newClient .readWrite "adresar", .loadRecord ident]⟩)
      ∧ contact_delete env cache remote id kod
        = ⟨.error (.valueError ("Contact not found: " ++ identStr ident)), cache2,
           [.newClient .readWrite "adresar", .loadRecord ident]⟩)
  ∧ (remote.loadOk "cenik" ident = false →
      (∀ data, product_update env cache remote id kod data
        = ⟨.error (.valueError ("Product not found: " ++ identStr ident)), cache2,
           [.newClient .readWrite "cenik", .loadRecord ident]⟩)
      ∧ product_delete env cache remote id kod
        = ⟨.error (.valueError ("Product not found: " ++ identStr ident)), cache2,
           [.newClient .readWrite "cenik", .loadRecord ident]⟩)
  ∧ (∀ evidence, remote.loadOk evidence ident = false →
      (∀ data, evidence_update env cache remote evidence id kod data
        = ⟨.error (.valueError
            ("Record not found in " ++ evidence ++ ": " ++ identStr ident)), cache2,
           [.newClient .readWrite evidence, .loadRecord ident]⟩)
      ∧ evidence_delete env cache remote evidence id kod
        = ⟨.error (.valueError
            ("Record not found in " ++ evidence ++ ": " ++ identStr ident)), cache2,
           [.newClient .readWrite evidence, .loadRecord ident]⟩) := by
  refine ⟨fun hL => ⟨?_, ?_⟩, fun hL => ⟨?_, ?_⟩, fun hL => ⟨?_, ?_⟩,
          fun ev hL => ⟨?_, ?_⟩⟩ <;> intros <;>
    simp [invoice_issued_update, invoice_issued_delete, contact_update,
          contact_delete, product_update, product_delete, evidence_update,
          evidence_delete, validate_read_only, get_readwrite_client,
          h0, hv, hid, hc, hL]

/-- C2 witness: updating a contact by kod "C1" against a remote on which
nothing exists fails with "Contact not found: code:C1" after exactly one
handle construction and one load and no mutating call. -/
theorem c2_not_found_witness :
    remoteTriv.loadOk "adresar" (.strId "code:C1") = false ∧
    contact_update envRW none remoteTriv none (some "C1")
        (some [("email", .pstr "a@b.cz")])
      = ⟨.error (.valueError ("Contact not found: " ++ identStr (.strId "code:C1"))),
         some cfgRW,
         [.newClient .readWrite "adresar", .loadRecord (.strId "code:C1")]⟩ :=
  ⟨rfl, ((c2_not_found envRW none remoteTriv cfgRW (some cfgRW) rfl envRW_config
      none (some "C1") (.strId "code:C1") rfl rfl).2.1 rfl).1
      (some [("email", .pstr "a@b.cz")])⟩

theorem loadsOf_append (a b : List ClientEvent) :
    loadsOf (a ++ b) = loadsOf a ++ loadsOf b := by
  simp [loadsOf]

theorem loadsOf_setData (l : List (String × PyVal)) :
    loadsOf (l.map (fun kv => .setDataValue kv.1 kv.2)) = [] := by
  induction l with
  | nil => rfl
  | cons kv t ih => simp [loadsOf]

/-- C4: identifier precedence in the update/delete tools.  First: when id is
a non-empty string, kod plays no role at all — the whole outcome is
identical for any two kod values.  Second: the identifier handed to the
(sole) load is then the Python int of id.  Third: when id is falsy and only
kod is supplied, the identifier handed to the load is the string "code:"
followed by kod verbatim. -/
theorem c4_identifier_precedence (env : Env) (cache : Option Config) (remote : Remote)
    (cfg : Config) (cache2 : Option Config)
    (h0 : is_read_only env = false)
    (hc : get_abraflexi_config env cache = (.ok cfg, cache2)) :
    (∀ s : String, s.isEmpty = false → ∀ kodA kodB : Option String,
      (∀ data, invoice_issued_update env cache remote (some s) kodA data
          = invoice_issued_update env cache remote (some s) kodB data)
      ∧ invoice_issued_delete env cache remote (some s) kodA
          = invoice_issued_delete env cache remote (some s) kodB
      ∧ (∀ data, contact_update env cache remote (some s) kodA data
          = contact_update env cache remote (some s) kodB data)
      ∧ contact_delete env cache remote (some s) kodA
          = contact_delete env cache remote (some s) kodB
      ∧ (∀ data, product_update env cache remote (some s) kodA data
          = product_update env cache remote (some s) kodB data)
      ∧ product_delete env cache remote (some s) kodA
          = product_delete env cache remote (some s) kodB
      ∧ (∀ evidence data, evidence_update env cache remote evidence (some s) kodA data
          = evidence_update env cache remote evidence (some s) kodB data)
      ∧ (∀ evidence, evidence_delete env cache remote evidence (some s) kodA
          = evidence_delete env cache remote evidence (some s) kodB))
  ∧ (∀ (s : String) (n : Int), s.isEmpty = false → pythonInt s = some n →
      ∀ kod : Option String,
      (∀ data, loadsOf (invoice_issued_update env cache remote (some s) kod data).events
          = [.intId n])
      ∧ loadsOf (invoice_issued_delete env cache remote (some s) kod).events = [.intId n]
      ∧ (∀ data, loadsOf (contact_update env cache remote (some s) kod data).events
          = [.intId n])
      ∧ loadsOf (contact_delete env cache remote (some s) kod).events = [.intId n]
      ∧ (∀ data, loadsOf (product_update env cache remote (some s) kod data).events
          = [.intId n])
      ∧ loadsOf (product_delete env cache remote (some s) kod).events = [.intId n]
      ∧ (∀ evidence data,
          loadsOf (evidence_update env cache remote evidence (some s) kod data).events
            = [.intId n])
      ∧ (∀ evidence,
          loadsOf (evidence_delete env cache remote evidence (some s) kod).events
            = [.intId n]))
  ∧ (∀ (id : Option String) (k : String), truthyS id = false → k.isEmpty = false →
      (∀ data, loadsOf (invoice_issued_update env cache remote id (some k) data).events
          = [.strId ("code:" ++ k)])
      ∧ loadsOf (invoice_issued_delete env cache remote id (some k)).events
          = [.strId ("code:" ++ k)]
      ∧ (∀ data, loadsOf (contact_update env cache remote id (some k) data).events
          = [.strId ("code:" ++ k)])
      ∧ loadsOf (contact_delete env cache remote id (some k)).events
          = [.strId ("code:" ++ k)]
      ∧ (∀ data, loadsOf (product_update env cache remote id (some k) data).events
          = [.strId ("code:" ++ k)])
      ∧ loadsOf (product_delete env cache remote id (some k)).events
          = [.strId ("code:" ++ k)]
      ∧ (∀ evidence data,
          loadsOf (evidence_update env cache remote evidence id (some k) data).events
            = [.strId ("code:" ++ k)])
      ∧ (∀ evidence,
          loadsOf (evidence_delete env cache remote evidence id (some k)).events
            = [.strId ("code:" ++ k)])) := by
  refine ⟨fun s hs kodA kodB => ?_, fun s n hs hn kod => ?_, fun id k hid hk => ?_⟩
  · have hss : truthyS (some s) = true := by simp [truthyS, hs]
    refine ⟨?_, ?_, ?_, ?_, ?_, ?_, ?_, ?_⟩ <;> intros <;>
      simp [invoice_issued_update, invoice_issued_delete, contact_update,
            contact_delete, product_update, product_delete, evidence_update,
            evidence_delete, validate_read_only, py_identifier, hss]
  · have hss : truthyS (some s) = true := by simp [truthyS, hs]
    refine ⟨?_, ?_, ?_, ?_, ?_, ?_, ?_, ?_⟩ <;> intros <;>
      (simp [invoice_issued_update, invoice_issued_delete, contact_update,
             contact_delete, product_update, product_delete, evidence_update,
             evidence_delete, validate_read_only, py_identifier,
             h0, hss, hn, hc, get_readwrite_client]
       <;> split
       <;> simp [loadsOf_append, loadsOf_setData, loadsOf])
  · have hks : truthyS (some k) = true := by simp [truthyS, hk]
    refine ⟨?_, ?_, ?_, ?_, ?_, ?_, ?_, ?_⟩ <;> intros <;>
      (simp [invoice_issued_update, invoice_issued_delete, contact_update,
             contact_delete, product_update, product_delete, evidence_update,
             evidence_delete, validate_read_only, py_identifier,
             h0, hid, hks, hc, get_readwrite_client]
       <;> split
       <;> simp [loadsOf_append, loadsOf_setData, loadsOf])

/-- C4 witness: with id "42" the outcome is identical for two different kod
values and the load receives the integer identifier 42; with only kod "P7"
the load receives the string identifier "code:P7". -/
theorem c4_identifier_precedence_witness :
    pythonInt "42" = some 42 ∧
    contact_update envRW none remoteTriv (some "42") (some "KOD-A") none
      = contact_update envRW none remoteTriv (some "42") (some "KOD-B") none ∧
    loadsOf (contact_update envRW none remoteTriv (some "42") (some "X") none).events
      = [.intId 42] ∧
    loadsOf (evidence_delete envRW none remoteTriv "cenik" none (some "P7")).events
      = [.strId ("code:" ++ "P7")] :=
  ⟨rfl,
   ((c4_identifier_precedence envRW none remoteTriv cfgRW (some cfgRW) rfl
       envRW_config).1 "42" rfl (some "KOD-A") (some "KOD-B")).2.2.1 none,
   ((c4_identifier_precedence envRW none remoteTriv cfgRW (some cfgRW) rfl
       envRW_config).2.1 "42" 42 rfl rfl (some "X")).2.2.1 none,
   ((c4_identifier_precedence envRW none remoteTriv cfgRW (some cfgRW) rfl
       envRW_config).2.2 none "P7" rfl rfl).2.2.2.2.2.2.2 "cenik"⟩

/-- C5: filter composition in the four category get tools.  The filter
expression assigned on the client is exactly the supplied predicates joined
by " AND " in the order ids, code, name, with the literal renderings
"id in (…)" over the comma-joined ids, "kod='…'" and "nazev like '*…*'",
each embedding the supplied text verbatim (no escaping); when no predicate
is supplied no filter is assigned at all.  In particular ids ["1","2"] with
code "X1" yields exactly "id in (1,2) AND kod='X1'". -/
theorem c5_filter_composition (env : Env) (cache : Option Config) (remote : Remote)
    (cfg : Config) (cache2 : Option Config)
    (hc : get_abraflexi_config env cache = (.ok cfg, cache2)) :
    (∀ ids kod limit detail,
      setFilterOf (invoice_issued_get env cache remote ids kod limit detail).events
        = (let preds :=
            (if truthyL ids then
              ["id in (" ++ String.intercalate "," (ids.getD []) ++ ")"] else [])
            ++ (if truthyS kod then ["kod='" ++ kod.getD "" ++ "'"] else [])
           if preds.isEmpty then none else some (String.intercalate " AND " preds)))
  ∧ (∀ ids kod limit detail,
      setFilterOf (invoice_received_get env cache remote ids kod limit detail).events
        = (let preds :=
            (if truthyL ids then
              ["id in (" ++ String.intercalate "," (ids.getD []) ++ ")"] else [])
            ++ (if truthyS kod then ["kod='" ++ kod.getD "" ++ "'"] else [])
           if preds.isEmpty then none else some (String.intercalate " AND " preds)))
  ∧ (∀ ids kod nazev limit detail,
      setFilterOf (contact_get env cache remote ids kod nazev limit detail).events
        = (let preds :=
            (if truthyL ids then
              ["id in (" ++ String.intercalate "," (ids.getD []) ++ ")"] else [])
            ++ (if truthyS kod then ["kod='" ++ kod.getD "" ++ "'"] else [])
            ++ (if truthyS nazev then
                  ["nazev like '*" ++ nazev.getD "" ++ "*'"] else [])
           if preds.isEmpty then none else some (String.intercalate " AND " preds)))
  ∧ (∀ ids kod nazev limit detail,
      setFilterOf (product_get env cache remote ids kod nazev limit detail).events
        = (let preds :=
            (if truthyL ids then
              ["id in (" ++ String.intercalate "," (ids.getD []) ++ ")"] else [])
            ++ (if truthyS kod then ["kod='" ++ kod.getD "" ++ "'"] else [])
            ++ (if truthyS nazev then
                  ["nazev like '*" ++ nazev.getD "" ++ "*'"] else [])
           if preds.isEmpty then none else some (String.intercalate " AND " preds)))
  ∧ setFilterOf (contact_get envRW none remoteTriv (some ["1", "2"]) (some "X1")
        none none "summary").events
      = some "id in (1,2) AND kod='X1'" := by
  refine ⟨?_, ?_, ?_, ?_, by decide⟩
  · intro ids kod limit detail
    cases hI : truthyL ids <;> cases hK : truthyS kod <;> cases hL : truthyI limit <;>
      simp [invoice_issued_get, get_readonly_client, hc, hI, hK, hL, setFilterOf]
  · intro ids kod limit detail
    cases hI : truthyL ids <;> cases hK : truthyS kod <;> cases hL : truthyI limit <;>
      simp [invoice_received_get, get_readonly_client, hc, hI, hK, hL, setFilterOf]
  · intro ids kod nazev limit detail
    cases hI : truthyL ids <;> cases hK : truthyS kod <;> cases hN : truthyS nazev <;>
      cases hL : truthyI limit <;>
      simp [contact_get, get_readonly_client, hc, hI, hK, hN, hL, setFilterOf]
  · intro ids kod nazev limit detail
    cases hI : truthyL ids <;> cases hK : truthyS kod <;> cases hN : truthyS nazev <;>
      cases hL : truthyI limit <;>
      simp [product_get, get_readonly_client, hc, hI, hK, hN, hL, setFilterOf]

/-- C5 witness: a name fragment alone renders as the substring pattern, and
no predicate at all assigns no filter. -/
theorem c5_filter_composition_witness :
    setFilterOf (contact_get envRW none remoteTriv none none (some "Nov")
        none "summary").events
      = some "nazev like '*Nov*'" ∧
    setFilterOf (product_get envRW none remoteTriv none none none
        none "summary").events = none :=
  ⟨by
    have h := (c5_filter_composition envRW none remoteTriv cfgRW (some cfgRW)
        envRW_config).2.2.1 none none (some "Nov") none "summary"
    simpa using h,
   by
    have h := (c5_filter_composition envRW none remoteTriv cfgRW (some cfgRW)
        envRW_config).2.2.2.1 none none none none "summary"
    simpa using h⟩

/-- C8 (amended): in every get tool the "limit" URL parameter is set, with
the supplied value, exactly when the supplied limit is Python-truthy (i.e.
present and nonzero); when the limit is absent — or zero, which `if limit:`
treats like absent — no "limit" parameter is set and remote-default paging
applies.  The "detail" parameter is always set and never aliases "limit". -/
theorem c8_limit_param_amended (env : Env) (cache : Option Config) (remote : Remote)
    (cfg : Config) (cache2 : Option Config)
    (hc : get_abraflexi_config env cache = (.ok cfg, cache2)) :
    (∀ ids kod limit detail,
      setParamOf "limit" (invoice_issued_get env cache remote ids kod limit detail).events
        = (if truthyI limit then some (.pint (limit.getD 0)) else none))
  ∧ (∀ ids kod limit detail,
      setParamOf "limit" (invoice_received_get env cache remote ids kod limit detail).events
        = (if truthyI limit then some (.pint (limit.getD 0)) else none))
  ∧ (∀ ids kod nazev limit detail,
      setParamOf "limit" (contact_get env cache remote ids kod nazev limit detail).events
        = (if truthyI limit then some (.pint (limit.getD 0)) else none))
  ∧ (∀ ids kod nazev limit detail,
      setParamOf "limit" (product_get env cache remote ids kod nazev limit detail).events
        = (if truthyI limit then some (.pint (limit.getD 0)) else none))
  ∧ (∀ ids limit detail,
      setParamOf "limit" (bank_transaction_get env cache remote ids limit detail).events
        = (if truthyI limit then some (.pint (limit.getD 0)) else none))
  ∧ (∀ evidence ids filter_expr limit detail,
      setParamOf "limit"
          (evidence_get env cache remote evidence ids filter_expr limit detail).events
        = (if truthyI limit then some (.pint (limit.getD 0)) else none)) := by
  refine ⟨?_, ?_, ?_, ?_, ?_, ?_⟩
  · intro ids kod limit detail
    cases hI : truthyL ids <;> cases hK : truthyS kod <;> cases hL : truthyI limit <;>
      simp [invoice_issued_get, get_readonly_client, hc, hI, hK, hL, setParamOf]
  · intro ids kod limit detail
    cases hI : truthyL ids <;> cases hK : truthyS kod <;> cases hL : truthyI limit <;>
      simp [invoice_received_get, get_readonly_client, hc, hI, hK, hL, setParamOf]
  · intro ids kod nazev limit detail
    cases hI : truthyL ids <;> cases hK : truthyS kod <;> cases hN : truthyS nazev <;>
      cases hL : truthyI limit <;>
      simp [contact_get, get_readonly_client, hc, hI, hK, hN, hL, setParamOf]
  · intro ids kod nazev limit detail
    cases hI : truthyL ids <;> cases hK : truthyS kod <;> cases hN : truthyS nazev <;>
      cases hL : truthyI limit <;>
      simp [product_get, get_readonly_client, hc, hI, hK, hN, hL, setParamOf]
  · intro ids limit detail
    cases hI : truthyL ids <;> cases hL : truthyI limit <;>
      simp [bank_transaction_get, get_readonly_client, hc, hI, hL, setParamOf]
  · intro evidence ids filter_expr limit detail
    cases hI : truthyL ids <;> cases hF : truthyS filter_expr <;>
      cases hL : truthyI limit <;>
      simp [evidence_get, get_readonly_client, hc, hI, hF, hL, setParamOf]

/-- C8 witness: a nonzero limit 25 is set as the "limit" URL parameter on
evidence_get, and an absent limit sets none. -/
theorem c8_limit_param_amended_witness :
    setParamOf "limit" (evidence_get envRW none remoteTriv "adresar" none none
        (some 25) "summary").events = some (.pint 25) ∧
    setParamOf "limit" (evidence_get envRW none remoteTriv "adresar" none none
        none "summary").events = none :=
  ⟨by
    have h := (c8_limit_param_amended envRW none remoteTriv cfgRW (some cfgRW)
        envRW_config).2.2.2.2.2 "adresar" none none (some 25) "summary"
    simpa using h,
   by
    have h := (c8_limit_param_amended envRW none remoteTriv cfgRW (some cfgRW)
        envRW_config).2.2.2.2.2 "adresar" none none none "summary"
    simpa using h⟩

/-- C8 counterexample to the claim as stated: a limit of 0 is supplied, the
call succeeds (an empty record list is fetched and formatted), yet no
"limit" URL parameter is set, because `if limit:` treats 0 as absent. -/
theorem c8_limit_param_counterexample :
    setParamOf "limit" (evidence_get envRW none remoteTriv "adresar" none none
        (some 0) "summary").events = none ∧
    (evidence_get envRW none remoteTriv "adresar" none none
        (some 0) "summary").result = .ok "[]" :=
  ⟨rfl, rfl⟩

/-- Whether the configuration resolver raised. -/
def isErrCfg : Except PyErr Config → Bool
  | .error _ => true
  | .ok _ => false

/-- When a first resolution succeeds, the returned cache holds exactly the
returned configuration. -/
theorem config_ok_caches (env : Env) (cfg : Config) (c2 : Option Config)
    (h : get_abraflexi_config env none = (.ok cfg, c2)) : c2 = some cfg := by
  simp only [get_abraflexi_config] at h
  split at h
  · simp at h
  · split at h
    · simp at h
    · split at h
      · simp at h
      · split at h
        · simp at h
        · simp at h
          exact h.2.symm.trans (congrArg some h.1)

/-- C6 (amended): on a first call (empty cache) the configuration resolver
fails exactly when the endpoint URL is absent/empty, the company identifier
is absent/empty, the ABRAFLEXI_TIMEOUT value (default "300") does not parse
as a Python int, or neither a session token nor both username and password
are present; on success the resolved configuration is cached and every
later call returns that same configuration without reading the environment
at all (the environment argument of the later call is arbitrary). -/
theorem c6_config_resolution_amended :
    (∀ env, isErrCfg (get_abraflexi_config env none).1
        = (!truthyS (getenv env "ABRAFLEXI_URL")
           || !truthyS (getenv env "ABRAFLEXI_COMPANY")
           || (pythonInt (getenvD env "ABRAFLEXI_TIMEOUT" "300")).isNone
           || (!truthyS (getenv env "ABRAFLEXI_AUTHSESSID")
               && !(truthyS (getenv env "ABRAFLEXI_LOGIN")
                    && truthyS (getenv env "ABRAFLEXI_PASSWORD")))))
  ∧ (∀ env cfg c2, get_abraflexi_config env none = (.ok cfg, c2) →
      c2 = some cfg ∧
      ∀ env2, get_abraflexi_config env2 (some cfg) = (.ok cfg, some cfg)) := by
  constructor
  · intro env
    cases hu : truthyS (getenv env "ABRAFLEXI_URL") <;>
    cases hcm : truthyS (getenv env "ABRAFLEXI_COMPANY") <;>
    rcases hts : pythonInt (getenvD env "ABRAFLEXI_TIMEOUT" "300") with _ | t <;>
    cases ha : truthyS (getenv env "ABRAFLEXI_AUTHSESSID") <;>
    cases hl : truthyS (getenv env "ABRAFLEXI_LOGIN") <;>
    cases hp : truthyS (getenv env "ABRAFLEXI_PASSWORD") <;>
      simp [get_abraflexi_config, isErrCfg, hu, hcm, hts, ha, hl, hp]
  · intro env cfg c2 h
    exact ⟨config_ok_caches env cfg c2 h, fun env2 => rfl⟩

/-- C6 witness: envRW resolves successfully (none of the failure conditions
hold) and a later call with a completely empty environment still returns
the cached configuration unchanged. -/
theorem c6_config_resolution_amended_witness :
    isErrCfg (get_abraflexi_config envRW none).1 = false ∧
    get_abraflexi_config [] (some cfgRW) = (.ok cfgRW, some cfgRW) :=
  ⟨by
    have h := c6_config_resolution_amended.1 envRW
    rw [h]; rfl,
   (c6_config_resolution_amended.2 envRW cfgRW (some cfgRW) envRW_config).2 []⟩

/-- An environment with endpoint, company and session token all present,
whose only defect is a non-numeric ABRAFLEXI_TIMEOUT. -/
def envBadTimeout : Env :=
  [("ABRAFLEXI_URL", "https://demo.flexibee.eu"),
   ("ABRAFLEXI_COMPANY", "demo_de"),
   ("ABRAFLEXI_AUTHSESSID", "sess"),
   ("ABRAFLEXI_TIMEOUT", "abc")]

/-- C6 counterexample to the claim as stated: url, company and session
token are all present (none of the claim's failure conditions hold), yet
the resolver fails, because int("abc") raises while the timeout entry of
the configuration dictionary is being built. -/
theorem c6_config_resolution_counterexample :
    truthyS (getenv envBadTimeout "ABRAFLEXI_URL") = true ∧
    truthyS (getenv envBadTimeout "ABRAFLEXI_COMPANY") = true ∧
    truthyS (getenv envBadTimeout "ABRAFLEXI_AUTHSESSID") = true ∧
    isErrCfg (get_abraflexi_config envBadTimeout none).1 = true :=
  ⟨rfl, rfl, rfl, rfl⟩

/-- Join a list of strings with a separator (the shape of str.join). -/
def joinSep (sep : String) : List String → String
  | [] => ""
  | [x] => x
  | x :: y :: xs => x ++ sep ++ joinSep sep (y :: xs)

/-- C7: the formatter maps True to exactly the compact success envelope
with value true and False to the one with value false; every non-boolean
value goes through the indent-2 renderer, whose object entries are an
order-preserving map over the dict's insertion-ordered entry list (key
order preserved); any character of code point at least 32 other than the
quote and the backslash — in particular every non-ASCII character — is
emitted verbatim, unescaped; and a non-JSON-serializable value is rendered
as the JSON string of its str() form instead of raising (the renderer is a
total function).  The concrete list of two record dicts renders as the
indented array with keys in insertion order and non-ASCII intact. -/
theorem c7_format_response :
    format_response (.pbool true) = "\x7b\"success\": true\x7d"
  ∧ format_response (.pbool false) = "\x7b\"success\": false\x7d"
  ∧ (∀ v : PyVal, (∀ b, v ≠ .pbool b) → format_response v = dumpVal v 0)
  ∧ (∀ s, format_response (.pother s) = encStr s)
  ∧ (∀ c : Char, 32 ≤ c.toNat → c ≠ '"' → c ≠ '\\' →
      escJsonChar c = String.singleton c)
  ∧ (∀ (kvs : List (String × PyVal)) (d : Nat),
      dumpEntries kvs d
        = joinSep ",\n" (kvs.map (fun kv => ind2 d ++ encStr kv.1 ++ ": " ++ dumpVal kv.2 d)))
  ∧ format_response (.plist [.pdict [("b", .pstr "č"), ("a", .pint 1)],
        .pdict [("x", .pstr "ř")]])
      = "[\n  \x7b\n    \"b\": \"č\",\n    \"a\": 1\n  \x7d,\n  \x7b\n    \"x\": \"ř\"\n  \x7d\n]" := by
  refine ⟨by decide, by decide, ?_, ?_, ?_, ?_, by decide⟩
  · intro v hv
    cases v <;> first | rfl | exact absurd rfl (hv _)
  · intro s
    rfl
  · intro c h1 h2 h3
    have hn : c ≠ '\n' := fun he => absurd (he ▸ h1) (by decide)
    have ht : c ≠ '\t' := fun he => absurd (he ▸ h1) (by decide)
    have hr : c ≠ '\r' := fun he => absurd (he ▸ h1) (by decide)
    have hb : c ≠ Char.ofNat 8 := fun he => absurd (he ▸ h1) (by decide)
    have hf : c ≠ Char.ofNat 12 := fun he => absurd (he ▸ h1) (by decide)
    simp [escJsonChar, h2, h3, hn, ht, hr, hb, hf, Nat.not_lt.mpr h1]
  · intro kvs d
    induction kvs with
    | nil => rfl
    | cons kv rest ih =>
      cases rest with
      | nil => rfl
      | cons kv2 t => simp [dumpEntries, joinSep] at ih ⊢; rw [ih]

/-- C7 witness: the non-boolean branch at an empty dict, the string
coercion at "ok", the verbatim single character at the non-ASCII 'č', and
the entry rendering at a one-entry dict. -/
theorem c7_format_response_witness :
    format_response (.pdict []) = dumpVal (.pdict []) 0 ∧
    format_response (.pother "ok") = encStr "ok" ∧
    escJsonChar 'č' = String.singleton 'č' ∧
    dumpEntries [("k", .pnull)] 0
      = joinSep ",\n" ([("k", PyVal.pnull)].map
          (fun kv => ind2 0 ++ encStr kv.1 ++ ": " ++ dumpVal kv.2 0)) :=
  ⟨c7_format_response.2.2.1 (.pdict []) (fun b h => nomatch h),
   c7_format_response.2.2.2.1 "ok",
   c7_format_response.2.2.2.2.1 'č' (by decide) (by decide) (by decide),
   c7_format_response.2.2.2.2.2.1 [("k", .pnull)] 0⟩

theorem setDataWrites_append (a b : List ClientEvent) :
    setDataWrites (a ++ b) = setDataWrites a ++ setDataWrites b := by
  simp [setDataWrites]

theorem setDataWrites_map (l : List (String × PyVal)) :
    setDataWrites (l.map fun kv => .setDataValue kv.1 kv.2) = l := by
  induction l with
  | nil => rfl
  | cons kv t ih => simp [setDataWrites] at ih ⊢; exact ih

theorem lastField_append_right (k : String) (v : PyVal) (a b : List (String × PyVal))
    (h : lastField b k = some v) : lastField (a ++ b) k = some v := by
  unfold lastField at h ⊢
  rw [List.filter_append, List.getLast?_append]
  rcases hg : (List.filter (fun kv => kv.1 == k) b).getLast? with _ | x
  · rw [hg] at h; simp at h
  · rw [hg] at h ⊢; simpa using h

theorem lastField_cons_right (k : String) (v : PyVal) (x : String × PyVal)
    (b : List (String × PyVal)) (h : lastField b k = some v) :
    lastField (x :: b) k = some v :=
  lastField_append_right k v [x] b h

theorem setDataWrites_newClient (m : Mode) (ev : String) (rest : List ClientEvent) :
    setDataWrites (.newClient m ev :: rest) = setDataWrites rest := by
  simp [setDataWrites]

theorem setDataWrites_setData (kk : String) (vv : PyVal) (rest : List ClientEvent) :
    setDataWrites (.setDataValue kk vv :: rest) = (kk, vv) :: setDataWrites rest := by
  simp [setDataWrites]

theorem setDataWrites_insertRecord (rest : List ClientEvent) :
    setDataWrites (.insertRecord :: rest) = setDataWrites rest := by
  simp [setDataWrites]

theorem setDataWrites_nil : setDataWrites [] = [] := rfl

/-- C9: in every create tool taking an extra_fields mapping, the client
trace is exactly one handle construction, then one set_data_value per field
— the explicitly named required/optional fields first and the extra fields
afterwards in the mapping's iteration order — then one insert; and because
later writes overwrite earlier ones in the client's field buffer, the
buffered value of any key whose last extra-fields binding is v is v, even
when the key collides with a named field. -/
theorem c9_extra_fields_override (env : Env) (cache : Option Config) (remote : Remote)
    (cfg : Config) (cache2 : Option Config)
    (h0 : is_read_only env = false)
    (hc : get_abraflexi_config env cache = (.ok cfg, cache2)) :
    (∀ kod firma dv pol ef,
      (invoice_issued_create env cache remote kod firma dv pol ef).events
        = .newClient .readWrite "faktura-vydana"
            :: (([("kod", PyVal.pstr kod), ("firma", PyVal.pstr firma)]
                ++ (if truthyS dv then [("datVyst", PyVal.pstr (dv.getD ""))] else [])
                ++ (if truthyPL pol then
                      [("polozkyFaktury", PyVal.plist (pol.getD []))] else [])
                ++ dictItems ef).map (fun kv => .setDataValue kv.1 kv.2)
               ++ [.insertRecord])
      ∧ ∀ k v, lastField (dictItems ef) k = some v →
          bufferVal (invoice_issued_create env cache remote kod firma dv pol ef).events k
            = some v)
  ∧ (∀ kod firma dv pol ef,
      (invoice_received_create env cache remote kod firma dv pol ef).events
        = .newClient .readWrite "faktura-prijata"
            :: (([("kod", PyVal.pstr kod), ("firma", PyVal.pstr firma)]
                ++ (if truthyS dv then [("datVyst", PyVal.pstr (dv.getD ""))] else [])
                ++ (if truthyPL pol then
                      [("polozkyFaktury", PyVal.plist (pol.getD []))] else [])
                ++ dictItems ef).map (fun kv => .setDataValue kv.1 kv.2)
               ++ [.insertRecord])
      ∧ ∀ k v, lastField (dictItems ef) k = some v →
          bufferVal (invoice_received_create env cache remote kod firma dv pol ef).events k
            = some v)
  ∧ (∀ kod nazev email tel ef,
      (contact_create env cache remote kod nazev email tel ef).events
        = .newClient .readWrite "adresar"
            :: (([("kod", PyVal.pstr kod), ("nazev", PyVal.pstr nazev)]
                ++ (if truthyS email then [("email", PyVal.pstr (email.getD ""))] else [])
                ++ (if truthyS tel then [("tel", PyVal.pstr (tel.getD ""))] else [])
                ++ dictItems ef).map (fun kv => .setDataValue kv.1 kv.2)
               ++ [.insertRecord])
      ∧ ∀ k v, lastField (dictItems ef) k = some v →
          bufferVal (contact_create env cache remote kod nazev email tel ef).events k
            = some v)
  ∧ (∀ kod nazev cena ef,
      (product_create env cache remote kod nazev cena ef).events
        = .newClient .readWrite "cenik"
            :: (([("kod", PyVal.pstr kod), ("nazev", PyVal.pstr nazev)]
                ++ (match cena with
                    | some c => [("cenaZakl", c)]
                    | none => [])
                ++ dictItems ef).map (fun kv => .setDataValue kv.1 kv.2)
               ++ [.insertRecord])
      ∧ ∀ k v, lastField (dictItems ef) k = some v →
          bufferVal (product_create env cache remote kod nazev cena ef).events k
            = some v)
  ∧ (∀ banka datum castka popis ef,
      (bank_transaction_create env cache remote banka datum castka popis ef).events
        = .newClient .readWrite "banka"
            :: (([("banka", PyVal.pstr banka), ("datum", PyVal.pstr datum),
                  ("castka", castka)]
                ++ (if truthyS popis then [("popis", PyVal.pstr (popis.getD ""))] else [])
                ++ dictItems ef).map (fun kv => .setDataValue kv.1 kv.2)
               ++ [.insertRecord])
      ∧ ∀ k v, lastField (dictItems ef) k = some v →
          bufferVal (bank_transaction_create env cache remote banka datum castka popis ef).events k
            = some v) := by
  refine ⟨fun kod firma dv pol ef => ⟨?_, ?_⟩, fun kod firma dv pol ef => ⟨?_, ?_⟩,
          fun kod nazev email tel ef => ⟨?_, ?_⟩, fun kod nazev cena ef => ⟨?_, ?_⟩,
          fun banka datum castka popis ef => ⟨?_, ?_⟩⟩
  · simp [invoice_issued_create, validate_read_only, h0, get_readwrite_client, hc]
  · intro k v hkv
    simp [bufferVal, invoice_issued_create, validate_read_only, h0,
          get_readwrite_client, hc, setDataWrites_append, setDataWrites_map,
          setDataWrites_newClient, setDataWrites_setData,
          setDataWrites_insertRecord, setDataWrites_nil]
    repeat first
      | exact hkv
      | apply lastField_append_right
      | apply lastField_cons_right
  · simp [invoice_received_create, validate_read_only, h0, get_readwrite_client, hc]
  · intro k v hkv
    simp [bufferVal, invoice_received_create, validate_read_only, h0,
          get_readwrite_client, hc, setDataWrites_append, setDataWrites_map,
          setDataWrites_newClient, setDataWrites_setData,
          setDataWrites_insertRecord, setDataWrites_nil]
    repeat first
      | exact hkv
      | apply lastField_append_right
      | apply lastField_cons_right
  · simp [contact_create, validate_read_only, h0, get_readwrite_client, hc]
  · intro k v hkv
    simp [bufferVal, contact_create, validate_read_only, h0,
          get_readwrite_client, hc, setDataWrites_append, setDataWrites_map,
          setDataWrites_newClient, setDataWrites_setData,
          setDataWrites_insertRecord, setDataWrites_nil]
    repeat first
      | exact hkv
      | apply lastField_append_right
      | apply lastField_cons_right
  · simp [product_create, validate_read_only, h0, get_readwrite_client, hc]
  · intro k v hkv
    simp [bufferVal, product_create, validate_read_only, h0,
          get_readwrite_client, hc, setDataWrites_append, setDataWrites_map,
          setDataWrites_newClient, setDataWrites_setData,
          setDataWrites_insertRecord, setDataWrites_nil]
    repeat first
      | exact hkv
      | apply lastField_append_right
      | apply lastField_cons_right
  · simp [bank_transaction_create, validate_read_only, h0, get_readwrite_client, hc]
  · intro k v hkv
    simp [bufferVal, bank_transaction_create, validate_read_only, h0,
          get_readwrite_client, hc, setDataWrites_append, setDataWrites_map,
          setDataWrites_newClient, setDataWrites_setData,
          setDataWrites_insertRecord, setDataWrites_nil]
    repeat first
      | exact hkv
      | apply lastField_append_right
      | apply lastField_cons_right

/-- C9 witness: an extra-fields entry keyed "kod" overrides the named kod
field of contact_create in the client's field buffer before the insert. -/
theorem c9_extra_fields_override_witness :
    lastField (dictItems (some [("kod", PyVal.pstr "OVR")])) "kod"
      = some (.pstr "OVR") ∧
    bufferVal (contact_create envRW none remoteTriv "C1" "Name" none none
        (some [("kod", PyVal.pstr "OVR")])).events "kod" = some (.pstr "OVR") :=
  ⟨rfl, ((c9_extra_fields_override envRW none remoteTriv cfgRW (some cfgRW) rfl
      envRW_config).2.2.1 "C1" "Name" none none
      (some [("kod", .pstr "OVR")])).2 "kod" (.pstr "OVR") rfl⟩

theorem isPySpace_of_digit (c : Char) (h1 : 48 ≤ c.toNat) (h2 : c.toNat ≤ 57) :
    isPySpace c = false := by
  simp [isPySpace]
  omega

theorem dropWhile_digits (l : List Char)
    (hd : ∀ c ∈ l, 48 ≤ c.toNat ∧ c.toNat ≤ 57) :
    l.dropWhile isPySpace = l := by
  cases l with
  | nil => rfl
  | cons c t =>
    have hb := hd c (List.mem_cons_self c t)
    simp [List.dropWhile_cons, isPySpace_of_digit c hb.1 hb.2]

theorem strip_digits (l : List Char)
    (hd : ∀ c ∈ l, 48 ≤ c.toNat ∧ c.toNat ≤ 57) :
    stripPySpace l = l := by
  unfold stripPySpace
  rw [dropWhile_digits l hd]
  rw [dropWhile_digits l.reverse (fun c hc => hd c (List.mem_reverse.mp hc))]
  exact List.reverse_reverse l

theorem parseDigits_digits (l : List Char) :
    ∀ acc : Nat, (∀ c ∈ l, 48 ≤ c.toNat ∧ c.toNat ≤ 57) →
      ∃ m, parseDigits acc false l = some m := by
  induction l with
  | nil => exact fun acc _ => ⟨acc, rfl⟩
  | cons c t ih =>
    intro acc hd
    have hb := hd c (List.mem_cons_self c t)
    have hvu : ¬(c = '_') := fun he => by
      rw [he] at hb
      exact absurd hb.2 (by decide)
    have hdv : digitVal c = some (c.toNat - 48) := by
      unfold digitVal
      rw [if_pos hb]
    obtain ⟨m, hm⟩ := ih (acc * 10 + (c.toNat - 48))
      (fun x hx => hd x (List.mem_cons_of_mem c hx))
    exact ⟨m, by unfold parseDigits; rw [if_neg hvu, hdv]; exact hm⟩

theorem parseUNat_digits (c : Char) (t : List Char)
    (hd : ∀ x ∈ c :: t, 48 ≤ x.toNat ∧ x.toNat ≤ 57) :
    ∃ m, parseUNat (c :: t) = some m := by
  have hb := hd c (List.mem_cons_self c t)
  have hdv : digitVal c = some (c.toNat - 48) := by
    unfold digitVal
    rw [if_pos hb]
  obtain ⟨m, hm⟩ := parseDigits_digits t (c.toNat - 48)
    (fun x hx => hd x (List.mem_cons_of_mem c hx))
  exact ⟨m, by simp only [parseUNat]; rw [hdv]; exact hm⟩

/-- On a non-empty all-ASCII-digit string Python int() always succeeds. -/
theorem pythonInt_digits (s : String) (hne : s.data ≠ [])
    (hd : ∀ c ∈ s.data, 48 ≤ c.toNat ∧ c.toNat ≤ 57) :
    ∃ n, pythonInt s = some n := by
  have hstrip : stripPySpace s.data = s.data := strip_digits s.data hd
  unfold pythonInt
  rw [hstrip]
  rcases hsd : s.data with _ | ⟨c, t⟩
  · exact absurd hsd hne
  · have hdc : ∀ x ∈ c :: t, 48 ≤ x.toNat ∧ x.toNat ≤ 57 := by
      rw [← hsd]; exact hd
    have hb := hdc c (List.mem_cons_self c t)
    have hplus : ¬(c = '+') := fun he => by
      rw [he] at hb
      exact absurd hb.1 (by decide)
    have hminus : ¬(c = '-') := fun he => by
      rw [he] at hb
      exact absurd hb.1 (by decide)
    simp only [parseSigned]
    rw [if_neg hplus, if_neg hminus]
    obtain ⟨m, hm⟩ := parseUNat_digits c t hdc
    exact ⟨(m : Int), by rw [hm]; rfl⟩

/-- C10: a non-empty id string that is not a valid Python integer literal
makes every update/delete tool raise the int() conversion ValueError at the
identifier-resolution step — before any client handle is constructed and
before any remote call (empty trace) and before the configuration is even
consulted (cache unchanged); and under the precondition that id is a
non-empty string of decimal digits the conversion branch never fails. -/
theorem c10_id_conversion (env : Env) (cache : Option Config) (remote : Remote)
    (h0 : is_read_only env = false) :
    (∀ s : String, s.isEmpty = false → pythonInt s = none → ∀ kod : Option String,
      (∀ data, invoice_issued_update env cache remote (some s) kod data
          = ⟨.error (.valueError (intErrMsg s)), cache, []⟩)
      ∧ invoice_issued_delete env cache remote (some s) kod
          = ⟨.error (.valueError (intErrMsg s)), cache, []⟩
      ∧ (∀ data, contact_update env cache remote (some s) kod data
          = ⟨.error (.valueError (intErrMsg s)), cache, []⟩)
      ∧ contact_delete env cache remote (some s) kod
          = ⟨.error (.valueError (intErrMsg s)), cache, []⟩
      ∧ (∀ data, product_update env cache remote (some s) kod data
          = ⟨.error (.valueError (intErrMsg s)), cache, []⟩)
      ∧ product_delete env cache remote (some s) kod
          = ⟨.error (.valueError (intErrMsg s)), cache, []⟩
      ∧ (∀ evidence data, evidence_update env cache remote evidence (some s) kod data
          = ⟨.error (.valueError (intErrMsg s)), cache, []⟩)
      ∧ (∀ evidence, evidence_delete env cache remote evidence (some s) kod
          = ⟨.error (.valueError (intErrMsg s)), cache, []⟩))
  ∧ (∀ s : String, s.data ≠ [] → (∀ c ∈ s.data, 48 ≤ c.toNat ∧ c.toNat ≤ 57) →
      ∃ n, pythonInt s = some n) := by
  constructor
  · intro s hsE hbad kod
    have hss : truthyS (some s) = true := by simp [truthyS, hsE]
    refine ⟨?_, ?_, ?_, ?_, ?_, ?_, ?_, ?_⟩ <;> intros <;>
      simp [invoice_issued_update, invoice_issued_delete, contact_update,
            contact_delete, product_update, product_delete, evidence_update,
            evidence_delete, validate_read_only, py_identifier, h0, hss, hbad]
  · exact fun s h1 h2 => pythonInt_digits s h1 h2

/-- C10 witness: "12.5" is rejected before any client interaction with the
precise CPython message, and the all-digit "123" converts successfully. -/
theorem c10_id_conversion_witness :
    pythonInt "12.5" = none ∧
    contact_update envRW (some cfgRW) remoteTriv (some "12.5") none none
      = ⟨.error (.valueError (intErrMsg "12.5")), some cfgRW, []⟩ ∧
    ∃ n, pythonInt "123" = some n :=
  ⟨rfl,
   ((c10_id_conversion envRW (some cfgRW) remoteTriv rfl).1 "12.5" rfl rfl
      none).2.2.1 none,
   (c10_id_conversion envRW (some cfgRW) remoteTriv rfl).2 "123"
      (by decide) (by decide)⟩
